import Mathlib

/-!
Shallow embedding of the msocks session layer of goproxy
(src/msocks/session.go), together with proofs about the port-table
operations, the read-loop dispatch, and the tunneled DNS lookup.

Machine integers (`uint16`) are modelled as `Nat` with explicit `% 65536`
where the Go code can wrap.  The Go map `ports map[uint16]FrameSender` is
modelled as an association list; a fresh insertion prepends, deletion
removes the first matching key, and lookup returns the first matching
entry, which agrees with the map semantics whenever keys are unique (the
map invariant).  Effectful calls into code outside this package
(`miekg/dns` pack/unpack, the carrier write, the resolver) are supplied
as explicit parameters in an `Env` record, so every path of the Go code
is reflected as a case split on `Env`.
-/

namespace Msocks

/-- Error values of the msocks package (errors.go is summarised in the
spec's error taxonomy; the constructors used here correspond to
`ErrIdExist`, `ErrStreamNotExist`, `ErrDnsMsgIllegal`, `ErrNoDnsServer`,
the `run out of stream id` error of `PutIntoNextId`, the timeout of
`RecvWithTimeout`, and a generic carrier-write failure). -/
inductive SessErr
  | idExist
  | streamNotExist
  | dnsMsgIllegal
  | noDnsServer
  | runOutOfStreamId
  | timeout
  | writeFailed
  | packFailed
  deriving DecidableEq

/-- Stream status values (ST_UNKNOWN, ST_SYN_RECV, ... of the msocks
package). -/
inductive ConnStatus
  | unknown
  | synSent
  | synRecv
  | est
  | finSent
  | finRecv
  | closedSt
  deriving DecidableEq

/-- Modelled from the spec: the per-stream record `Conn` (conn.go is not
under src/); only the fields session.go reads are kept: `streamid`,
`network`, `address` and `status`. -/
structure ConnRec where
  streamid : Nat
  network : String
  address : String
  status : ConnStatus
  deriving DecidableEq

/-- Modelled from the spec: `FrameSender` is "a tagged variant
\x7bStream, OneShotChannel\x7d" — the values stored in a session's port
table are either a stream (`*Conn`) or a one-shot DNS channel
(`*ChanFrameSender`, with a closed flag). -/
inductive FrameSender
  | conn (c : ConnRec)
  | chanFS (closedCh : Bool)
  deriving DecidableEq

/-- Frames of the wire protocol (frame.go is not under src/; the frame
kinds and their payloads are modelled from the spec's frame table).
Every frame carries a `streamid` in its 5-byte header. -/
inductive Frame
  | syn (streamid : Nat) (network address : String)
  | result (streamid : Nat) (errno : Nat)
  | data (streamid : Nat) (payload : List Nat)
  | wnd (streamid : Nat) (credit : Nat)
  | fin (streamid : Nat)
  | rst (streamid : Nat)
  | ping (streamid : Nat)
  | dns (streamid : Nat) (payload : List Nat)
  | spam (streamid : Nat) (payload : List Nat)
  deriving DecidableEq

/-- The streamid field of a frame's header (`Frame.GetStreamid`). -/
def Frame.streamid : Frame → Nat
  | .syn id _ _ => id
  | .result id _ => id
  | .data id _ => id
  | .wnd id _ => id
  | .fin id => id
  | .rst id => id
  | .ping id => id
  | .dns id _ => id
  | .spam id _ => id

/-- Error codes carried by RESULT frames, in the spec's order
(`NONE=0`, `IDEXIST`, `CONNFAILED`, `AUTH`, `TIMEOUT`). -/
def ERR_NONE : Nat := 0

def ERR_IDEXIST : Nat := 1

def ERR_CONNFAILED : Nat := 2

/-- The mutable state of `Session` that session.go's port-table
operations touch: the `closed` flag, the allocation cursor `next_id`
(a uint16), and the port table. -/
structure Session where
  closed : Bool
  next_id : Nat
  ports : List (Nat × FrameSender)
  deriving DecidableEq

/-- Lookup in the port table (`s.ports[id]` on the Go map). -/
def findPort (ports : List (Nat × FrameSender)) (id : Nat) : Option FrameSender :=
  match ports.find? (fun p => p.1 = id) with
  | some p => some p.2
  | none => none

/-- The scan loop of `Session.PutIntoNextId` (session.go lines 79-87):
while the current candidate is occupied, increment `next_id` by 1
(wrapping uint16) and fail if it has come back around to `startid`.
`fuel` bounds the recursion; 65536 steps always suffice because the
cursor returns to `startid` after exactly 65536 increments. -/
def scanId (ports : List (Nat × FrameSender)) (startid : Nat) : Nat → Nat → Option Nat
  | cur, fuel =>
    match findPort ports cur with
    | none => some cur
    | some _ =>
      match fuel with
      | 0 => none
      | fuel' + 1 =>
        let cur' := (cur + 1) % 65536
        if cur' = startid then none else scanId ports startid cur' fuel'

/-- `Session.PutIntoNextId` (session.go lines 76-96): scan from
`next_id` for an unused slot; on success store `fs` there, advance
`next_id` two past the chosen id (wrapping uint16) and return the id;
on a full wrap return the `run out of stream id` error with the state
unchanged (the cursor has wrapped back to its starting value). -/
def PutIntoNextId (s : Session) (fs : FrameSender) : Session × Option Nat :=
  match scanId s.ports s.next_id s.next_id 65536 with
  | none => (s, none)
  | some id =>
      ({ s with next_id := (id + 2) % 65536, ports := (id, fs) :: s.ports }, some id)

/-- `Session.PutIntoId` (session.go lines 98-111): fail with
`ErrIdExist` when the id is already present, otherwise store `fs`
under `id`. -/
def PutIntoId (s : Session) (id : Nat) (fs : FrameSender) : Session × Option SessErr :=
  match findPort s.ports id with
  | some _ => (s, some .idExist)
  | none => ({ s with ports := (id, fs) :: s.ports }, none)

/-- `Session.RemovePort` (session.go lines 113-124): error when the
streamid is absent, otherwise delete its entry. -/
def RemovePort (s : Session) (streamid : Nat) : Session × Option SessErr :=
  match findPort s.ports streamid with
  | none => (s, some .streamNotExist)
  | some _ =>
      ({ s with ports := s.ports.eraseP (fun p => p.1 = streamid) }, none)

/-- The state effect of `Session.Close` (session.go lines 126-149) on
the fields modelled here: the `closed` flag is set.  (Closing the
carrier, the speed counters and the concurrent `CloseFrame` dispatch
to every port are I/O and are outside the state model.) -/
def Close (s : Session) : Session :=
  { s with closed := true }

/-- The body of the loop of `Session.GetPorts` (session.go lines 56-60):
keep a port-table entry exactly when its value is a stream
(the `fs.(*Conn)` type assertion). -/
def extractConn (p : Nat × FrameSender) : Option ConnRec :=
  match p.2 with
  | .conn c => some c
  | _ => none

/-- `Session.GetPorts` (session.go lines 52-62): collect the port-table
values that are streams (`*Conn`), dropping every other `FrameSender`. -/
def GetPorts (s : Session) : List ConnRec :=
  s.ports.filterMap extractConn

/-- The comparison of `ConnSlice.Less` (session.go line 68), relaxed to
its reflexive closure as a total sorting order. -/
def connLE (a b : ConnRec) : Prop := a.streamid ≤ b.streamid

instance : DecidableRel connLE := fun a b => Nat.decLe a.streamid b.streamid

instance : IsTotal ConnRec connLE := ⟨fun a b => Nat.le_total a.streamid b.streamid⟩

instance : IsTrans ConnRec connLE := ⟨fun _ _ _ h h2 => Nat.le_trans h h2⟩

/-- `Session.GetSortedPorts` (session.go lines 70-74): the streams of
the port table sorted by `streamid` (`sort.Sort` with
`ConnSlice.Less`; any comparison sort yields the same sorted
rearrangement, modelled with insertion sort). -/
def GetSortedPorts (s : Session) : List ConnRec :=
  (GetPorts s).insertionSort connLE

/-- A record of a DNS answer section as session.go consumes it: an A
record with an IPv4 address, an AAAA record with an IPv6 address, or
any other record type (skipped by the type switches at session.go
lines 368-373 and 394-400). -/
inductive DnsRR
  | A (ip : List Nat)
  | AAAA (ip : List Nat)
  | other
  deriving DecidableEq

/-- The "inner" DNS message (`dns.Msg` of miekg/dns): only the fields
session.go reads — transaction id, the Response flag, the question
section, and the answer section reduced to its A/AAAA content. -/
structure DnsMsg where
  id : Nat
  response : Bool
  recursionDesired : Bool
  question : List String
  answer : List DnsRR
  deriving DecidableEq

/-- Environment of effectful calls that session.go makes into code
outside this package: `unpackDns`/`packDns` are `dns.Msg.Unpack`/`Pack`
of miekg/dns; `wireWrite` is whether `Session.SendFrame`'s carrier
write succeeds; `deliver` is whether `FrameSender.SendFrame` into a
port's channel succeeds (conn.go is not under src/; modelled from the
spec: delivery to a live recipient succeeds, a closed one fails);
`hasDnsLookup` is whether `sutils.DefaultLookuper` is a `DnsLookup`;
`exchange` is the server-side resolver; `freshId` is `dns.Id()`. -/
structure Env where
  unpackDns : List Nat → Option DnsMsg
  packDns : DnsMsg → Option (List Nat)
  wireWrite : Bool
  deliver : FrameSender → Frame → Bool
  hasDnsLookup : Bool
  exchange : DnsMsg → Option DnsMsg
  freshId : Nat

/-- `Session.sendFrameInChan` (session.go lines 243-258): look the
frame's streamid up in the port table; a missing id is
`ErrStreamNotExist`, otherwise the frame is handed to the port's
`SendFrame` and its error is propagated. -/
def sendFrameInChan (env : Env) (s : Session) (f : Frame) : Option SessErr :=
  match findPort s.ports f.streamid with
  | none => some .streamNotExist
  | some c => if env.deliver c f then none else some .writeFailed

/-- `Session.on_syn` (session.go lines 279-342): build a fresh stream
in `ST_SYN_RECV` (a fresh `Conn` starts in `ST_UNKNOWN`, so
`CheckAndSetStatus(ST_UNKNOWN, ST_SYN_RECV)` always succeeds on it)
and insert it under the peer-chosen id.  On `IdExist`, reply
`RESULT(IDEXIST)` and return the reply write's error.  On success the
target dial happens in a spawned goroutine, outside this step; the
loop gets `nil` back.  Returns (new state, frames written to the
carrier, error returned to the read loop). -/
def on_syn (env : Env) (s : Session) (streamid : Nat) (network address : String) :
    Session × List Frame × Option SessErr :=
  let c : ConnRec :=
    { streamid := streamid, network := network, address := address, status := .synRecv }
  match PutIntoId s streamid (.conn c) with
  | (s', some _) =>
      if env.wireWrite then (s', [Frame.result streamid ERR_IDEXIST], none)
      else (s', [], some .writeFailed)
  | (s', none) => (s', [], none)

/-- `Session.on_dns` (session.go lines 442-481): unpack the inner DNS
message (failure is `ErrDnsMsgIllegal`); a response is dispatched with
`sendFrameInChan` and that call's error is returned; a query is
resolved (no resolver: `ErrNoDnsServer`; resolver error or reply pack
error: logged and dropped, `nil` returned) and the packed reply is
sent back on the same streamid, the carrier write's error being
returned. -/
def on_dns (env : Env) (s : Session) (streamid : Nat) (payload : List Nat) :
    Session × List Frame × Option SessErr :=
  match env.unpackDns payload with
  | none => (s, [], some .dnsMsgIllegal)
  | some req =>
    if req.response then
      (s, [], sendFrameInChan env s (Frame.dns streamid payload))
    else if ¬env.hasDnsLookup then (s, [], some .noDnsServer)
    else
      match env.exchange req with
      | none => (s, [], none)
      | some res =>
        match env.packDns res with
        | none => (s, [], none)
        | some b =>
            if env.wireWrite then (s, [Frame.dns streamid b], none)
            else (s, [], some .writeFailed)

/-- Outcome of one iteration of the read loop: either the loop
continues with the new session state, or it returns — and then the
deferred `s.Close()` of `Session.Run` (session.go line 196) runs, so
the terminal state is closed.  `sent` collects the frames written to
the carrier during the iteration. -/
inductive StepResult
  | next (s : Session) (sent : List Frame)
  | halt (s : Session) (sent : List Frame)
  deriving DecidableEq

/-- The dispatch of one successfully read frame by `Session.Run`
(session.go lines 213-238): RESULT/DATA/WND/FIN/RST go through
`sendFrameInChan` and any error ends the loop; SYN goes through
`on_syn`, DNS through `on_dns`, likewise fatal on error; PING and SPAM
are ignored.  When the loop returns, the deferred `Close` marks the
session closed. -/
def runStep (env : Env) (s : Session) (f : Frame) : StepResult :=
  match f with
  | .result .. | .data .. | .wnd .. | .fin _ | .rst _ =>
    match sendFrameInChan env s f with
    | none => .next s []
    | some _ => .halt (Close s) []
  | .syn id nw addr =>
    match on_syn env s id nw addr with
    | (s', sent, none) => .next s' sent
    | (s', sent, some _) => .halt (Close s') sent
  | .dns id payload =>
    match on_dns env s id payload with
    | (s', sent, none) => .next s' sent
    | (s', sent, some _) => .halt (Close s') sent
  | .ping _ => .next s []
  | .spam .. => .next s []

/-- The address of an answer record, when the record is an A or an
AAAA record (the type switch of session.go lines 394-400). -/
def rrAddr : DnsRR → Option (List Nat)
  | .A ip => some ip
  | .AAAA ip => some ip
  | .other => none

/-- `ParseDnsFrame` (session.go lines 379-403): reject anything that is
not a DNS frame, whose payload does not unpack, that is not a
response, or whose transaction id differs from the request's — all
with `ErrDnsMsgIllegal`; otherwise return the A and AAAA addresses of
the answer section in order. -/
def ParseDnsFrame (unpack : List Nat → Option DnsMsg) (f : Frame) (req : DnsMsg) :
    Except SessErr (List (List Nat)) :=
  match f with
  | .dns _ d =>
    match unpack d with
    | none => .error .dnsMsgIllegal
    | some res =>
        if ¬res.response ∨ res.id ≠ req.id then .error .dnsMsgIllegal
        else .ok (res.answer.filterMap rrAddr)
  | _ => .error .dnsMsgIllegal

/-- The request built by `MakeDnsFrame` (session.go lines 348-363): a
fresh transaction id, the question for the host, recursion desired. -/
def mkDnsReq (env : Env) (host : String) : DnsMsg :=
  { id := env.freshId, response := false, recursionDesired := true,
    question := [host], answer := [] }

/-- `Session.LookupIP` (session.go lines 405-440).  `parseIP` stands
for `net.ParseIP`; a literal IP short-circuits.  Otherwise a one-shot
channel is installed under a fresh streamid, the packed query is sent,
and the response is awaited (`env.recvDns`; `none` is the
`RecvWithTimeout` timeout) and parsed; the deferred `RemovePort`
removes the streamid on every one of those exit paths.  Returns (new
state, frames written to the carrier, result). -/
def LookupIP (parseIP : String → Option (List Nat)) (recvDns : Option Frame)
    (env : Env) (s : Session) (host : String) :
    Session × List Frame × Except SessErr (List (List Nat)) :=
  match parseIP host with
  | some ip => (s, [], .ok [ip])
  | none =>
    match PutIntoNextId s (.chanFS false) with
    | (s1, none) => (s1, [], .error .runOutOfStreamId)
    | (s1, some streamid) =>
      match env.packDns (mkDnsReq env host) with
      | none => ((RemovePort s1 streamid).1, [], .error .packFailed)
      | some payload =>
        if ¬env.wireWrite then ((RemovePort s1 streamid).1, [], .error .writeFailed)
        else
          match recvDns with
          | none =>
              ((RemovePort s1 streamid).1, [Frame.dns streamid payload],
                .error .timeout)
          | some fres =>
              ((RemovePort s1 streamid).1, [Frame.dns streamid payload],
                ParseDnsFrame env.unpackDns fres (mkDnsReq env host))

/-- The frame kinds dispatched through `sendFrameInChan` by the read
loop (the `*FrameResult, *FrameData, *FrameWnd, *FrameFin, *FrameRst`
case of session.go line 217). -/
def isChanDispatched : Frame → Bool
  | .result .. | .data .. | .wnd .. | .fin _ | .rst _ => true
  | _ => false

/-- A port-table entry is well keyed when a stream stored in it records
the streamid it is stored under (streams enter the table under their
own id: `NewConn(ft.Streamid, ...)` in `on_syn`, and `Dial` writes the
allocated id back into the stream). -/
def portIdOk (p : Nat × FrameSender) : Bool :=
  match p.2 with
  | .conn c => c.streamid = p.1
  | _ => true

/-- A concrete environment used to instantiate proved theorems: the
inner DNS payloads never unpack, packing succeeds, the carrier write
and channel delivery succeed. -/
def exEnv : Env :=
  { unpackDns := fun _ => none, packDns := fun _ => some [0],
    wireWrite := true, deliver := fun _ _ => true,
    hasDnsLookup := true, exchange := fun _ => none, freshId := 9 }

/-- A variant of `exEnv` whose inner DNS payloads all unpack to a DNS
response with transaction id 3 and an empty answer section. -/
def exEnvResp : Env :=
  { exEnv with unpackDns := fun _ => some ⟨3, true, true, [], []⟩ }

/-- A concrete stand-in for `net.ParseIP`, recognising the single
literal "1.2.3.4". -/
def exParseIP (host : String) : Option (List Nat) :=
  if host = "1.2.3.4" then some [1, 2, 3, 4] else none

/-- A client session as `NewSession` creates it for the claims'
concrete instances: not closed, `next_id` 1 (odd), with streamid 1
already occupied by a one-shot channel. -/
def exClientBusy : Session := ⟨false, 1, [(1, .chanFS false)]⟩

/-- A fresh empty session with odd (client) `next_id`. -/
def exEmpty : Session := ⟨false, 1, []⟩

/-- A closed session with an empty port table. -/
def exClosed : Session := ⟨true, 1, []⟩

/-- Unfolding of `scanId` at fuel 0. -/
theorem scanId_zero (ports : List (Nat × FrameSender)) (startid cur : Nat) :
    scanId ports startid cur 0 =
      match findPort ports cur with
      | none => some cur
      | some _ => none := by
  cases h : findPort ports cur <;> simp [scanId, h]

/-- Unfolding of `scanId` at positive fuel. -/
theorem scanId_succ (ports : List (Nat × FrameSender)) (startid cur f : Nat) :
    scanId ports startid cur (f + 1) =
      match findPort ports cur with
      | none => some cur
      | some _ =>
        if (cur + 1) % 65536 = startid then none
        else scanId ports startid ((cur + 1) % 65536) f := by
  cases h : findPort ports cur <;> simp [scanId, h]

/-- C1 (refuting instance): on a client session whose `next_id` is 1
(odd parity) and whose slot 1 is occupied, the scan of
`PutIntoNextId` moves by 1, not 2: the id handed out is 2 — even,
the server side's parity — and `next_id` is left at 4, so every
subsequent self-assigned id is even as well.  The claim's step-2 scan
would have returned 3 and kept the parity odd. -/
theorem putIntoNextId_scan_steps_by_one :
    PutIntoNextId exClientBusy (.chanFS false) =
      (⟨false, 4, [(2, FrameSender.chanFS false), (1, FrameSender.chanFS false)]⟩,
        some 2) ∧
    exClientBusy.next_id % 2 = 1 ∧ 2 % 2 = 0 := by
  refine ⟨?_, by decide, by decide⟩
  decide

/-- C2: a RESULT, DATA, WND, FIN or RST frame whose streamid is not in
the port table makes `sendFrameInChan` return `ErrStreamNotExist`, on
which the read loop returns and the deferred `Close` marks the session
closed. -/
theorem chan_frame_unknown_id_halts (env : Env) (s : Session) (f : Frame)
    (hk : isChanDispatched f = true)
    (hm : findPort s.ports f.streamid = none) :
    sendFrameInChan env s f = some SessErr.streamNotExist ∧
    runStep env s f = StepResult.halt (Close s) [] ∧
    (Close s).closed = true := by
  have hsend : sendFrameInChan env s f = some SessErr.streamNotExist := by
    unfold sendFrameInChan
    rw [hm]
  refine ⟨hsend, ?_, rfl⟩
  cases f <;> simp_all [runStep, isChanDispatched]

/-- Witness for C2 at a concrete input: a DATA frame for streamid 9 on
an empty session. -/
theorem chan_frame_unknown_id_halts_witness :
    isChanDispatched (Frame.data 9 []) = true ∧
    findPort exEmpty.ports (Frame.data 9 []).streamid = none ∧
    (sendFrameInChan exEnv exEmpty (Frame.data 9 []) = some SessErr.streamNotExist ∧
     runStep exEnv exEmpty (Frame.data 9 []) = StepResult.halt (Close exEmpty) [] ∧
     (Close exEmpty).closed = true) :=
  ⟨by decide, by decide,
    chan_frame_unknown_id_halts exEnv exEmpty (Frame.data 9 []) (by decide) (by decide)⟩

/-- C3 (refuting instance): a DNS frame whose payload does not unpack
makes `on_dns` return `ErrDnsMsgIllegal`, and a well-formed DNS
response for a streamid with no waiting one-shot channel makes it
return `ErrStreamNotExist`; in both cases the read loop treats the
error as fatal and the session is closed — the failure does not stay
local to the lookup. -/
theorem dns_error_terminates_session :
    on_dns exEnv exEmpty 5 [0] = (exEmpty, [], some SessErr.dnsMsgIllegal) ∧
    runStep exEnv exEmpty (Frame.dns 5 [0]) = StepResult.halt (Close exEmpty) [] ∧
    on_dns exEnvResp exEmpty 5 [0] = (exEmpty, [], some SessErr.streamNotExist) ∧
    runStep exEnvResp exEmpty (Frame.dns 5 [0]) = StepResult.halt (Close exEmpty) [] ∧
    (Close exEmpty).closed = true := by
  refine ⟨by decide, by decide, by decide, by decide, by decide⟩

/-- C4: an incoming SYN whose streamid is already in the port table
makes `PutIntoId` fail with `ErrIdExist`; the session replies with
`RESULT(IDEXIST)` on that streamid, the state (hence the port table)
is unchanged, and — the reply write succeeding — the read loop
continues. -/
theorem on_syn_idexist_keeps_session (env : Env) (s : Session) (id : Nat)
    (nw addr : String) (fs : FrameSender)
    (hex : findPort s.ports id = some fs) (hw : env.wireWrite = true) :
    (PutIntoId s id (.conn
      { streamid := id, network := nw, address := addr, status := .synRecv })).2 =
        some SessErr.idExist ∧
    runStep env s (Frame.syn id nw addr) =
      StepResult.next s [Frame.result id ERR_IDEXIST] := by
  constructor
  · unfold PutIntoId
    rw [hex]
  · simp [runStep, on_syn, PutIntoId, hex, hw]

/-- Witness for C4 at a concrete input: streamid 7 already present. -/
theorem on_syn_idexist_keeps_session_witness :
    findPort exClientBusy.ports 1 = some (FrameSender.chanFS false) ∧
    exEnv.wireWrite = true ∧
    ((PutIntoId exClientBusy 1 (.conn
        { streamid := 1, network := "tcp", address := "a:1", status := .synRecv })).2 =
          some SessErr.idExist ∧
     runStep exEnv exClientBusy (Frame.syn 1 "tcp" "a:1") =
       StepResult.next exClientBusy [Frame.result 1 ERR_IDEXIST]) :=
  ⟨by decide, by decide,
    on_syn_idexist_keeps_session exEnv exClientBusy 1 "tcp" "a:1"
      (FrameSender.chanFS false) (by decide) (by decide)⟩

/-- C5 (refuting instance): on a session whose `closed` flag is set,
`PutIntoId` still inserts the new port and `PutIntoNextId` still hands
out an id and inserts — neither consults the flag. -/
theorem closed_insert_cex :
    exClosed.closed = true ∧
    (PutIntoId exClosed 3 (.chanFS false)).1.ports =
      [(3, FrameSender.chanFS false)] ∧
    (PutIntoNextId exClosed (.chanFS false)).2 = some 1 ∧
    (PutIntoNextId exClosed (.chanFS false)).1.ports =
      [(1, FrameSender.chanFS false)] := by
  refine ⟨by decide, by decide, by decide, by decide⟩

/-- C5 (amended): `Close` sets the `closed` flag, but `PutIntoId` and
`PutIntoNextId` never consult it — a call on the closed session has
exactly the same port-table effect and returns the same id or error as
on the session before closing. -/
theorem closed_flag_not_consulted (s : Session) (id : Nat) (fs fs2 : FrameSender) :
    (Close s).closed = true ∧
    PutIntoId (Close s) id fs =
      (Close (PutIntoId s id fs).1, (PutIntoId s id fs).2) ∧
    PutIntoNextId (Close s) fs2 =
      (Close (PutIntoNextId s fs2).1, (PutIntoNextId s fs2).2) := by
  refine ⟨rfl, ?_, ?_⟩
  · unfold PutIntoId Close
    cases h : findPort s.ports id <;> simp [h]
  · unfold PutIntoNextId Close
    cases h : scanId s.ports s.next_id s.next_id 65536 <;> simp [h]

/-- C6: a host that parses as a literal IP makes `LookupIP` return
exactly that one-element list, with the session state untouched and no
frame written to the carrier. -/
theorem lookupIP_literal (parseIP : String → Option (List Nat))
    (recvDns : Option Frame) (env : Env) (s : Session) (host : String)
    (ip : List Nat) (h : parseIP host = some ip) :
    LookupIP parseIP recvDns env s host = (s, [], Except.ok [ip]) := by
  unfold LookupIP
  rw [h]

/-- Witness for C6 at a concrete input: the literal "1.2.3.4". -/
theorem lookupIP_literal_witness :
    exParseIP "1.2.3.4" = some [1, 2, 3, 4] ∧
    LookupIP exParseIP none exEnv exEmpty "1.2.3.4" =
      (exEmpty, [], Except.ok [[1, 2, 3, 4]]) :=
  ⟨by decide,
    lookupIP_literal exParseIP none exEnv exEmpty "1.2.3.4" [1, 2, 3, 4] (by decide)⟩

/-- A successful scan lands on an unoccupied slot. -/
theorem scanId_free (ports : List (Nat × FrameSender)) (startid : Nat) :
    ∀ fuel cur id, scanId ports startid cur fuel = some id →
      findPort ports id = none := by
  intro fuel
  induction fuel with
  | zero =>
    intro cur id h
    rw [scanId_zero] at h
    cases hfp : findPort ports cur with
    | none =>
      rw [hfp] at h
      simp only [Option.some.injEq] at h
      rwa [← h]
    | some v => rw [hfp] at h; cases h
  | succ f ih =>
    intro cur id h
    rw [scanId_succ] at h
    cases hfp : findPort ports cur with
    | none =>
      rw [hfp] at h
      simp only [Option.some.injEq] at h
      rwa [← h]
    | some v =>
      rw [hfp] at h
      by_cases hb : (cur + 1) % 65536 = startid
      · rw [if_pos hb] at h; cases h
      · rw [if_neg hb] at h
        exact ih ((cur + 1) % 65536) id h

/-- The scan of `PutIntoNextId` comes back empty exactly when every
slot it can visit — starting at `start` and stepping by one with
uint16 wraparound, i.e. all 65536 slots — is occupied.  Stated at the
cursor position reached after `65536 - fuel` steps. -/
theorem scanId_none_iff (ports : List (Nat × FrameSender)) (start : Nat)
    (hs : start < 65536) :
    ∀ fuel, 1 ≤ fuel → fuel ≤ 65536 →
      (scanId ports start ((start + (65536 - fuel)) % 65536) fuel = none ↔
        ∀ k, 65536 - fuel ≤ k → k < 65536 →
          (findPort ports ((start + k) % 65536)).isSome = true) := by
  intro fuel
  induction fuel with
  | zero => intro h1 _; exact absurd h1 (by omega)
  | succ f ih =>
    intro _ h2
    rcases Nat.eq_zero_or_pos f with hf | hf
    · subst hf
      rw [scanId_succ]
      cases hfp : findPort ports ((start + (65536 - 1)) % 65536) with
      | none =>
        simp only
        constructor
        · intro hcontra; cases hcontra
        · intro hall
          have h65535 := hall 65535 (by omega) (by omega)
          rw [hfp] at h65535
          cases h65535
      | some v =>
        simp only
        have hb : (((start + (65536 - 1)) % 65536) + 1) % 65536 = start := by omega
        rw [if_pos hb]
        constructor
        · intro _ k hk1 hk2
          have hk : k = 65535 := by omega
          subst hk
          rw [show (65536 - 1 : Nat) = 65535 from rfl] at hfp
          rw [hfp]
          rfl
        · intro _; rfl
    · rw [scanId_succ]
      cases hfp : findPort ports ((start + (65536 - (f + 1))) % 65536) with
      | none =>
        simp only
        constructor
        · intro hcontra; cases hcontra
        · intro hall
          have hhd := hall (65536 - (f + 1)) (by omega) (by omega)
          rw [hfp] at hhd
          cases hhd
      | some v =>
        simp only
        have hb : ¬((((start + (65536 - (f + 1))) % 65536) + 1) % 65536 = start) := by
          omega
        rw [if_neg hb]
        have hcur : (((start + (65536 - (f + 1))) % 65536) + 1) % 65536 =
            (start + (65536 - f)) % 65536 := by omega
        rw [hcur, ih (by omega) (by omega)]
        constructor
        · intro htail k hk1 hk2
          rcases Nat.eq_or_lt_of_le hk1 with heq | hlt
          · rw [← heq, hfp]
            rfl
          · exact htail k (by omega) hk2
        · intro hall k hk1 hk2
          exact hall k (by omega) hk2

/-- The scan starting at the cursor itself fails exactly when all
65536 slots are occupied: stepping by one from `start` visits every
residue class modulo 65536. -/
theorem scanId_full_none_iff (ports : List (Nat × FrameSender)) (start : Nat)
    (hs : start < 65536) :
    scanId ports start start 65536 = none ↔
      ∀ i, i < 65536 → (findPort ports i).isSome = true := by
  have h := scanId_none_iff ports start hs 65536 (by omega) (by omega)
  have hstart : (start + (65536 - 65536)) % 65536 = start := by omega
  rw [hstart] at h
  rw [h]
  constructor
  · intro hall i hi
    have hsome := hall ((i + 65536 - start) % 65536) (by omega) (by omega)
    have harith : (start + ((i + 65536 - start) % 65536)) % 65536 = i := by omega
    rwa [harith] at hsome
  · intro hall k _ _
    exact hall ((start + k) % 65536) (by omega)

/-- C8: `PutIntoNextId` reports `RunOutOfStreamId` exactly when the
scan wraps fully around without finding an unused slot — every
streamid it can visit is occupied — and on that failure the session is
returned unchanged: nothing is inserted and no id is handed out. -/
theorem putIntoNextId_exhaustion (s : Session) (fs : FrameSender)
    (h : s.next_id < 65536) :
    ((PutIntoNextId s fs).2 = none ↔
      ∀ i, i < 65536 → (findPort s.ports i).isSome = true) ∧
    ((PutIntoNextId s fs).2 = none → PutIntoNextId s fs = (s, none)) := by
  constructor
  · rw [← scanId_full_none_iff s.ports s.next_id h]
    unfold PutIntoNextId
    cases hscan : scanId s.ports s.next_id s.next_id 65536 <;> simp [hscan]
  · intro h2
    unfold PutIntoNextId at h2 ⊢
    cases hscan : scanId s.ports s.next_id s.next_id 65536 <;>
      simp [hscan] at h2 ⊢

/-- Witness for C8 at a concrete input: a fresh session with an empty
port table (the scan succeeds, matching the right side being false). -/
theorem putIntoNextId_exhaustion_witness :
    exEmpty.next_id < 65536 ∧
    (((PutIntoNextId exEmpty (.chanFS false)).2 = none ↔
        ∀ i, i < 65536 → (findPort exEmpty.ports i).isSome = true) ∧
      ((PutIntoNextId exEmpty (.chanFS false)).2 = none →
        PutIntoNextId exEmpty (.chanFS false) = (exEmpty, none))) :=
  ⟨by decide, putIntoNextId_exhaustion exEmpty (.chanFS false) (by decide)⟩

/-- Removing the just-inserted head entry of a port table restores the
table below it. -/
theorem removePort_cons (s1 : Session) (id : Nat) (fs : FrameSender)
    (rest : List (Nat × FrameSender)) (hports : s1.ports = (id, fs) :: rest) :
    ((RemovePort s1 id).1).ports = rest := by
  unfold RemovePort findPort
  rw [hports]
  simp

/-- C9: a tunneled `LookupIP` call leaves the port table exactly as it
found it on every exit path — literal IP, allocation failure, query
pack failure, carrier write failure, response timeout, and a received
response (well-formed or not): the deferred `RemovePort` drops the
allocated streamid before returning. -/
theorem lookupIP_ports_preserved (parseIP : String → Option (List Nat))
    (recvDns : Option Frame) (env : Env) (s : Session) (host : String) :
    ((LookupIP parseIP recvDns env s host).1).ports = s.ports := by
  unfold LookupIP
  cases hp : parseIP host with
  | some ip => rfl
  | none =>
    cases hscan : scanId s.ports s.next_id s.next_id 65536 with
    | none => simp [PutIntoNextId, hscan]
    | some id =>
      have hrm := removePort_cons
        (Session.mk s.closed ((id + 2) % 65536)
          ((id, FrameSender.chanFS false) :: s.ports))
        id (FrameSender.chanFS false) s.ports rfl
      simp only [PutIntoNextId, hscan]
      cases hpk : env.packDns (mkDnsReq env host) with
      | none => simpa using hrm
      | some payload =>
        by_cases hw : env.wireWrite = true
        · simp only [hw]
          cases recvDns with
          | none => simpa using hrm
          | some fres => simpa using hrm
        · simp only [Bool.not_eq_true] at hw
          simp only [hw]
          simpa using hrm

/-- C7: `ParseDnsFrame` succeeds exactly on a DNS frame whose payload
unpacks to a response carrying the request's transaction id, and then
returns precisely the A and AAAA addresses of the answer section in
order; every failure is `ErrDnsMsgIllegal`. -/
theorem parseDnsFrame_charac (unpack : List Nat → Option DnsMsg)
    (f : Frame) (req : DnsMsg) :
    (∀ addrs, ParseDnsFrame unpack f req = .ok addrs ↔
      ∃ sid d res, f = Frame.dns sid d ∧ unpack d = some res ∧
        res.response = true ∧ res.id = req.id ∧
        addrs = res.answer.filterMap rrAddr) ∧
    ((∃ addrs, ParseDnsFrame unpack f req = .ok addrs) ∨
      ParseDnsFrame unpack f req = .error SessErr.dnsMsgIllegal) := by
  constructor
  · intro addrs
    cases f with
    | dns sid d =>
      cases hu : unpack d with
      | none => simp [ParseDnsFrame, hu]
      | some res =>
        by_cases hc : ¬res.response ∨ res.id ≠ req.id
        · constructor
          · intro h
            rcases hc with hcr | hci
            · have hb : res.response = false := by
                revert hcr; cases res.response <;> simp
              exact absurd h (by simp [ParseDnsFrame, hu, hb])
            · exact absurd h (by simp [ParseDnsFrame, hu, hci])
          · rintro ⟨sid', d', res', hf, hu', hr', hi', _⟩
            injection hf with h1 h2
            subst h2
            rw [hu] at hu'
            injection hu' with h3
            subst h3
            rcases hc with hcr | hci
            · exact absurd hr' hcr
            · exact absurd hi' hci
        · have hr : res.response = true := not_not.mp (not_or.mp hc).1
          have hi : res.id = req.id := not_not.mp (not_or.mp hc).2
          constructor
          · intro h
            refine ⟨sid, d, res, rfl, hu, hr, hi, ?_⟩
            have hok2 : Except.ok (ε := SessErr) (res.answer.filterMap rrAddr) =
                Except.ok addrs := by
              rw [← h]
              simp [ParseDnsFrame, hu, hr, hi]
            injection hok2 with h4
            exact h4.symm
          · rintro ⟨sid', d', res', hf, hu', _, _, ha⟩
            injection hf with h1 h2
            subst h2
            rw [hu] at hu'
            injection hu' with h3
            subst h3
            rw [ha]
            simp [ParseDnsFrame, hu, hr, hi]
    | syn sid nw addr => simp [ParseDnsFrame]
    | result sid errno => simp [ParseDnsFrame]
    | data sid payload => simp [ParseDnsFrame]
    | wnd sid credit => simp [ParseDnsFrame]
    | fin sid => simp [ParseDnsFrame]
    | rst sid => simp [ParseDnsFrame]
    | ping sid => simp [ParseDnsFrame]
    | spam sid payload => simp [ParseDnsFrame]
  · cases f with
    | dns sid d =>
      cases hu : unpack d with
      | none => right; simp [ParseDnsFrame, hu]
      | some res =>
        by_cases hc : ¬res.response ∨ res.id ≠ req.id
        · right
          rcases hc with hcr | hci
          · have hb : res.response = false := by
              revert hcr; cases res.response <;> simp
            simp [ParseDnsFrame, hu, hb]
          · simp [ParseDnsFrame, hu, hci]
        · have hr : res.response = true := not_not.mp (not_or.mp hc).1
          have hi : res.id = req.id := not_not.mp (not_or.mp hc).2
          left
          exact ⟨res.answer.filterMap rrAddr, by simp [ParseDnsFrame, hu, hr, hi]⟩
    | syn sid nw addr => right; rfl
    | result sid errno => right; rfl
    | data sid payload => right; rfl
    | wnd sid credit => right; rfl
    | fin sid => right; rfl
    | rst sid => right; rfl
    | ping sid => right; rfl
    | spam sid payload => right; rfl

/-- The streamid of every stream that `GetPorts` keeps is a key of the
port table, provided every entry is well keyed. -/
theorem getPorts_ids_subset (l : List (Nat × FrameSender))
    (hok : ∀ p ∈ l, portIdOk p = true) :
    ∀ x, x ∈ (l.filterMap extractConn).map ConnRec.streamid →
      x ∈ l.map Prod.fst := by
  intro x hx
  simp only [List.mem_map, List.mem_filterMap] at hx ⊢
  rcases hx with ⟨c, ⟨p, hp, hpc⟩, hxc⟩
  rcases p with ⟨id, fs⟩
  refine ⟨(id, fs), hp, ?_⟩
  cases fs with
  | chanFS b => simp [extractConn] at hpc
  | conn c2 =>
    simp only [extractConn, Option.some.injEq] at hpc
    have hidok := hok (id, .conn c2) hp
    simp only [portIdOk, decide_eq_true_eq] at hidok
    rw [← hxc, ← hpc, hidok]

/-- The streamids of the streams that `GetPorts` keeps are pairwise
distinct when the port table's keys are and every entry is well
keyed. -/
theorem getPorts_ids_nodup (l : List (Nat × FrameSender))
    (hnd : (l.map Prod.fst).Nodup) (hok : ∀ p ∈ l, portIdOk p = true) :
    ((l.filterMap extractConn).map ConnRec.streamid).Nodup := by
  induction l with
  | nil => simp
  | cons p l ih =>
    rcases p with ⟨id, fs⟩
    have hnd' : (l.map Prod.fst).Nodup := (List.nodup_cons.mp hnd).2
    have hid : id ∉ l.map Prod.fst := (List.nodup_cons.mp hnd).1
    have hok' : ∀ q ∈ l, portIdOk q = true := fun q hq => hok q (List.mem_cons_of_mem _ hq)
    cases fs with
    | chanFS b =>
      simpa [extractConn] using ih hnd' hok'
    | conn c =>
      have hc : c.streamid = id := by
        have := hok (id, .conn c) (List.mem_cons_self _ _)
        simpa [portIdOk] using this
      simp only [List.filterMap_cons, extractConn, List.map_cons, hc]
      rw [List.nodup_cons]
      exact ⟨fun hmem => hid (getPorts_ids_subset l hok' id hmem),
        ih hnd' hok'⟩

/-- C10: `GetSortedPorts` returns exactly the port-table entries that
are streams — every other `FrameSender` is dropped — in strictly
ascending order of streamid, provided the port table's keys are unique
(the Go map invariant) and every stream is stored under its own
streamid. -/
theorem getSortedPorts_spec (s : Session)
    (hnd : (s.ports.map Prod.fst).Nodup)
    (hok : ∀ p ∈ s.ports, portIdOk p = true) :
    (∀ c, c ∈ GetSortedPorts s ↔ ∃ id, (id, FrameSender.conn c) ∈ s.ports) ∧
    (GetSortedPorts s).Pairwise (fun a b => a.streamid < b.streamid) := by
  have hperm : List.Perm (GetSortedPorts s) (GetPorts s) :=
    List.perm_insertionSort connLE (GetPorts s)
  constructor
  · intro c
    rw [hperm.mem_iff]
    unfold GetPorts
    rw [List.mem_filterMap]
    constructor
    · rintro ⟨⟨id, fs⟩, hp, hpc⟩
      cases fs with
      | chanFS b => simp [extractConn] at hpc
      | conn c2 =>
        simp only [extractConn, Option.some.injEq] at hpc
        exact ⟨id, by rw [← hpc]; exact hp⟩
    · rintro ⟨id, hp⟩
      exact ⟨(id, .conn c), hp, rfl⟩
  · have hsorted : (GetSortedPorts s).Pairwise connLE :=
      List.sorted_insertionSort connLE (GetPorts s)
    have hnd2 : ((GetPorts s).map ConnRec.streamid).Nodup :=
      getPorts_ids_nodup s.ports hnd hok
    have hne : (GetPorts s).Pairwise fun a b => a.streamid ≠ b.streamid :=
      List.pairwise_map.mp hnd2
    have hne2 : (GetSortedPorts s).Pairwise fun a b => a.streamid ≠ b.streamid :=
      (hperm.pairwise_iff fun h => h.symm).mpr hne
    exact (hsorted.and hne2).imp fun h => Nat.lt_of_le_of_ne h.1 h.2

/-- Witness for C10 at a concrete input: streams under ids 5 and 3 and
a one-shot channel under id 2. -/
theorem getSortedPorts_spec_witness :
    ((⟨false, 1, [(5, .conn ⟨5, "tcp", "b", .est⟩), (2, .chanFS false),
        (3, .conn ⟨3, "tcp", "a", .est⟩)]⟩ : Session).ports.map Prod.fst).Nodup ∧
    (∀ p ∈ (⟨false, 1, [(5, .conn ⟨5, "tcp", "b", .est⟩), (2, .chanFS false),
        (3, .conn ⟨3, "tcp", "a", .est⟩)]⟩ : Session).ports, portIdOk p = true) ∧
    ((∀ c, c ∈ GetSortedPorts (⟨false, 1, [(5, .conn ⟨5, "tcp", "b", .est⟩),
          (2, .chanFS false), (3, .conn ⟨3, "tcp", "a", .est⟩)]⟩ : Session) ↔
        ∃ id, (id, FrameSender.conn c) ∈ (⟨false, 1,
          [(5, .conn ⟨5, "tcp", "b", .est⟩), (2, .chanFS false),
            (3, .conn ⟨3, "tcp", "a", .est⟩)]⟩ : Session).ports) ∧
      (GetSortedPorts (⟨false, 1, [(5, .conn ⟨5, "tcp", "b", .est⟩),
          (2, .chanFS false), (3, .conn ⟨3, "tcp", "a", .est⟩)]⟩ : Session)).Pairwise
        fun a b => a.streamid < b.streamid) :=
  ⟨by decide, by decide,
    getSortedPorts_spec
      (⟨false, 1, [(5, .conn ⟨5, "tcp", "b", .est⟩), (2, .chanFS false),
        (3, .conn ⟨3, "tcp", "a", .est⟩)]⟩ : Session) (by decide) (by decide)⟩

end Msocks
